import Mathlib

/-!
Verification development for the MII client coordinator (`mii/client.py`).

The file gives a shallow embedding of the two client classes:

* `MIIClient` — a single-endpoint client whose async call
  `_request_async_response` consults the conversion table
  `GRPC_METHOD_TABLE`, packs the request, performs one remote invocation
  and optionally unpacks the response.
* `MIITensorParallelClient` — the fan-out coordinator: the blocking
  `query` path through `_query_in_tensor_parallel`, the non-blocking
  `query_non_block` submission, and the polling drive step
  `get_pending_task_result` with its FIFO task queue, result cache and
  `running` flag.

Domain payloads are abstracted to natural numbers (the request
dictionary, the wire protobuf and the unpacked domain value); remote
endpoints are abstracted to functions from a method name and a request
message to a transport outcome.  Network activity and diagnostic prints
are made observable as explicit event lists so that claims about "no
network call" and "the failure is reported" can be stated.
-/

namespace MII

/-- A task-specific request dictionary, abstracted to its payload. -/
abbrev Req := Nat

/-- A wire-format (protobuf) message, abstracted to its payload. -/
abbrev Proto := Nat

/-- An unpacked domain-level response value. -/
abbrev Val := Nat

/-- A transport-level failure code (connection refused, deadline, ...). -/
abbrev TransportErr := Nat

/-- One entry of `GRPC_METHOD_TABLE`: the remote method name, the
request-packing function, and the optional response-unpacking function
(the key `unpack_response_from_proto` may be absent from the dict, hence
`Option`). -/
structure Conversions where
  method : String
  pack_request_to_proto : Req → Proto
  unpack_response_from_proto : Option (Proto → Val)

/-- The conversion table `GRPC_METHOD_TABLE`, as a partial map from task
kind to its registered conversions (`none` models `task not in
GRPC_METHOD_TABLE`). -/
abbrev MethodTable := String → Option Conversions

/-- A connected stub: invoking remote method `m` with message `p` either
returns a response message or fails at the transport level. -/
abbrev Stub := String → Proto → Except TransportErr Proto

/-- Errors raised by `MIIClient._request_async_response`: the local
`ValueError` for an unknown task kind, or a propagated transport
failure from the awaited remote call. -/
inductive CallErr where
  | unknownTask (task : String)
  | transport (e : TransportErr)
deriving DecidableEq, Repr

/-- The value returned by `_request_async_response`: the unpacked domain
value when `unpack_response_from_proto` is registered, otherwise the raw
proto response passed through unconverted. -/
inductive CallResp where
  | unpacked (v : Val)
  | raw (p : Proto)
deriving DecidableEq, Repr

/-- An observable network event: one remote method invocation (the
request message sent on the wire). -/
inductive NetEvent where
  | send (method : String) (p : Proto)
deriving DecidableEq, Repr

namespace MIIClient

/-- `MIIClient._request_async_response(self, request_dict, **query_kwargs)`:

* `if self.task not in GRPC_METHOD_TABLE: raise ValueError(...)` —
  a local, synchronous failure with no network event;
* otherwise pack the request, await the remote method on the stub
  (one network round trip, recorded as a `NetEvent`), and unpack the
  response iff `"unpack_response_from_proto" in conversions`.

The result pairs the list of network events performed with the
outcome. -/
def _request_async_response (table : MethodTable) (stub : Stub)
    (task : String) (request_dict : Req) :
    List NetEvent × Except CallErr CallResp :=
  match table task with
  | none => ([], .error (.unknownTask task))
  | some conversions =>
    let proto_request := conversions.pack_request_to_proto request_dict
    match stub conversions.method proto_request with
    | .error e =>
      ([.send conversions.method proto_request], .error (.transport e))
    | .ok proto_response =>
      ([.send conversions.method proto_request],
       .ok (match conversions.unpack_response_from_proto with
            | some unpack => .unpacked (unpack proto_response)
            | none => .raw proto_response))

/-- `MIIClient.query`: `run_until_complete` of the async call — the same
events and outcome, delivered synchronously. -/
def query (table : MethodTable) (stub : Stub) (task : String)
    (request_dict : Req) : List NetEvent × Except CallErr CallResp :=
  _request_async_response table stub task request_dict

end MIIClient

namespace MIITensorParallelClient

/-- `MIITensorParallelClient._query_in_tensor_parallel`:

    for client in self.clients:
        responses.append(self.asyncio_loop.create_task(
            client._request_async_response(request_string, **query_kwargs)))
    await responses[0]
    return responses[0]

Every client's call is created (initiated) in shard-index order; the
coroutine then awaits `responses[0]` only.  The first component lists
each shard's network events (all N calls are issued regardless of which
one is awaited; concrete completion interleaving is abstracted away).
The second component is `none` when `self.clients` is empty
(`responses[0]` raises `IndexError`), and otherwise the outcome of shard
index 0's call: awaiting it re-raises its failure, and on success the
blocking caller's `.result()` yields its value. -/
def _query_in_tensor_parallel (table : MethodTable) (stubs : List Stub)
    (task : String) (request_string : Req) :
    List (List NetEvent) × Option (Except CallErr CallResp) :=
  let responses := stubs.map
    (fun stub => MIIClient._request_async_response table stub task request_string)
  (responses.map Prod.fst,
   match responses.head? with
   | none => none
   | some r => some r.2)

/-- `MIITensorParallelClient.query`: `run_until_complete` of the fan-out
coroutine followed by `response.result()`.  `none` models the crash on
an empty shard list; otherwise the outcome is shard 0's. -/
def query (table : MethodTable) (stubs : List Stub) (task : String)
    (request_dict : Req) : Option (Except CallErr CallResp) :=
  (_query_in_tensor_parallel table stubs task request_dict).2

/-- Exceptions that `run_until_complete(task['coro'])` can raise while
the registry drives a queued fan-out coroutine: the `IndexError` from
`responses[0]` on an empty shard list, or the failure of shard 0's call
re-raised by `await responses[0]`. -/
inductive Exn where
  | indexError
  | callFailed (e : CallErr)
deriving DecidableEq, Repr

instance {ε α : Type} [DecidableEq ε] [DecidableEq α] :
    DecidableEq (Except ε α)
  | .error e, .error f =>
    if h : e = f then .isTrue (congrArg Except.error h)
    else .isFalse (fun hc => h (Except.error.inj hc))
  | .error _, .ok _ => .isFalse (fun hc => Except.noConfusion hc)
  | .ok _, .error _ => .isFalse (fun hc => Except.noConfusion hc)
  | .ok a, .ok b =>
    if h : a = b then .isTrue (congrArg Except.ok h)
    else .isFalse (fun hc => h (Except.ok.inj hc))

/-- A fan-out coroutine object as stored (un-executed) by
`query_non_block`, represented by what driving it to completion
produces: the network events of the N initiated shard calls, and either
the designated shard's response or a raised exception. -/
abbrev Coro := List NetEvent × Except Exn CallResp

/-- The coroutine `self._query_in_tensor_parallel(request_dict,
query_kwargs)` as a `Coro` value: its network events flattened in
shard-index order, and its outcome under `run_until_complete` plus
`.result()`. -/
def mkCoro (table : MethodTable) (stubs : List Stub) (task : String)
    (request_dict : Req) : Coro :=
  let r := _query_in_tensor_parallel table stubs task request_dict
  (r.1.flatten,
   match r.2 with
   | none => .error .indexError
   | some (.error e) => .error (.callFailed e)
   | some (.ok v) => .ok v)

/-- One entry of `self.tasks`: the dict
`{"id": id(coro), "coro": coro, "run": False}`. -/
structure TaskRec where
  id : Nat
  coro : Coro
  run : Bool
deriving DecidableEq, Repr

/-- A diagnostic print emitted by `get_pending_task_result`:
`print(f"... started, queue=...")`, `print(f"... complete")`, and the
`except` branch's `print(f"..., {e}")`. -/
inductive LogEvent where
  | started (id qlen : Nat)
  | complete (id : Nat)
  | failed (id : Nat)
deriving DecidableEq, Repr

/-- The mutable registry state of a `MIITensorParallelClient` instance:
`self.tasks` (the FIFO queue), `self.results` (the result cache as
`id`/`result` pairs), and `self.running`.  `log` records the diagnostic
prints and `net` the network events performed so far; both exist only to
make side effects observable. -/
structure TPState where
  tasks : List TaskRec
  results : List (Nat × CallResp)
  running : Bool
  log : List LogEvent
  net : List NetEvent
deriving DecidableEq, Repr

/-- The registry state right after a (hypothetically successful)
`__init__`: `self.tasks = []`, `self.results = []`,
`self.running = False`. -/
def initState : TPState :=
  { tasks := [], results := [], running := false, log := [], net := [] }

/-- `MIITensorParallelClient.query_non_block`:

    coro = self._query_in_tensor_parallel(request_dict, query_kwargs)
    self.tasks.append(\x7b"id": id(coro), "coro": coro, "run": False\x7d)
    return id(coro)

Creating the coroutine object does not execute its body, so no network
event is performed.  The handle is CPython's `id(coro)`: the address of
the new coroutine object, passed here as the parameter `h`.  Python
guarantees only that `id` values of objects with overlapping lifetimes
differ (`freshHandle` below); a freed coroutine's id may be reused. -/
def query_non_block (s : TPState) (h : Nat) (coro : Coro) : Nat × TPState :=
  (h, { s with tasks := s.tasks ++ [{ id := h, coro := coro, run := false }] })

/-- The ids of the coroutines currently held by `self.tasks` (the live
coroutine objects owned by the registry). -/
def taskIds (s : TPState) : List Nat := s.tasks.map TaskRec.id

/-- The ids under which `self.results` caches a resolved value. -/
def resultIds (s : TPState) : List Nat := s.results.map Prod.fst

/-- Python's guarantee on `id(coro)` at submission time: the fresh
coroutine object is distinct from every coroutine still alive in the
queue, so its address differs from theirs.  Nothing more is
guaranteed. -/
def freshHandle (s : TPState) (h : Nat) : Prop := h ∉ taskIds s

instance (s : TPState) (h : Nat) : Decidable (freshHandle s h) :=
  inferInstanceAs (Decidable (h ∉ taskIds s))

/-- `MIITensorParallelClient.get_pending_task_result(self, id)`, the
polling drive step, translated clause by clause:

    result = next((item for item in self.results if item["id"] == id), None)
    if result is not None:
        self.results = [item for item in self.results if item['id'] != id]
        return result['result']
    if not self.running and len(self.tasks) > 0:
        try:
            self.running = True
            task = self.tasks[0]
            print(f"... started, queue=len(self.tasks)")
            self.tasks.remove(task)
            response = self.asyncio_loop.run_until_complete(task['coro'])
            print(f"... complete")
            self.running = False
            if id == task['id']:
                return response.result()
            else:
                self.results.append(...)
        except Exception as e:
            print(...)
    return None

Note that when `run_until_complete` raises, the assignment
`self.running = False` on the line after it is skipped: the `except`
branch only prints, leaving `self.running` equal to `True`. -/
def get_pending_task_result (s : TPState) (i : Nat) :
    Option CallResp × TPState :=
  match s.results.find? (fun item => item.1 == i) with
  | some result =>
    (some result.2,
     { s with results := s.results.filter (fun item => item.1 != i) })
  | none =>
    match s.running, s.tasks with
    | false, task :: rest =>
      let s1 : TPState :=
        { s with running := true,
                 tasks := rest,
                 log := s.log ++ [.started task.id (task :: rest).length],
                 net := s.net ++ task.coro.1 }
      match task.coro.2 with
      | .error _ =>
        (none, { s1 with log := s1.log ++ [.failed task.id] })
      | .ok response =>
        let s2 : TPState :=
          { s1 with running := false, log := s1.log ++ [.complete task.id] }
        if i = task.id then
          (some response, s2)
        else
          (none, { s2 with results := s2.results ++ [(task.id, response)] })
    | _, _ => (none, s)

/-- An operation a caller can perform against the registry. -/
inductive Op where
  | submit (h : Nat) (coro : Coro)
  | poll (h : Nat)
deriving DecidableEq, Repr

/-- The state transition of one operation. -/
def step (s : TPState) : Op → TPState
  | .submit h coro => (query_non_block s h coro).2
  | .poll h => (get_pending_task_result s h).2

/-- Running a sequence of operations from a state. -/
def runOps (s : TPState) : List Op → TPState
  | [] => s
  | op :: ops => runOps (step s op) ops

/-- The handle `h` is nowhere in the registry: not the id of a queued
task nor of a cached result.  This holds for a handle that was never
submitted, and again after its cache entry has been claimed. -/
def handleAbsent (s : TPState) (h : Nat) : Prop :=
  h ∉ taskIds s ∧ h ∉ resultIds s

instance (s : TPState) (h : Nat) : Decidable (handleAbsent s h) :=
  inferInstanceAs (Decidable (_ ∧ _))

/-- The operation does not submit under handle `h` (no id-reuse of `h`). -/
def avoidsHandle (h : Nat) : Op → Prop
  | .submit h' _ => h' ≠ h
  | .poll _ => True

instance (h : Nat) : (op : Op) → Decidable (avoidsHandle h op)
  | .submit h' _ => inferInstanceAs (Decidable (h' ≠ h))
  | .poll _ => inferInstanceAs (Decidable True)

/-- A Python `AttributeError` from reading an instance attribute that
was never assigned. -/
inductive PyErr where
  | attributeError (name : String)
deriving DecidableEq, Repr

/-- The instance attribute store of a `MIITensorParallelClient` while
`__init__` runs.  Each field is `none` until the corresponding
`self.<attr> = ...` assignment executes; reading a `none` field raises
`AttributeError`.  `clients` and `stubs` are abstracted to the number of
objects held. -/
structure TPAttrs where
  task : Option String
  clients : Option Nat
  asyncio_loop : Option Unit
  num_gpus : Option Nat
  port_number : Option Nat
  stubs : Option Nat
  tasks : Option (List TaskRec)
  results : Option (List (Nat × CallResp))
  running : Option Bool
deriving DecidableEq, Repr

/-- A freshly created instance: no attribute assigned yet. -/
def noAttrs : TPAttrs :=
  { task := none, clients := none, asyncio_loop := none, num_gpus := none,
    port_number := none, stubs := none, tasks := none, results := none,
    running := none }

/-- The body of the `for i in range(self.num_gpus)` loop of
`_initialize_grpc_client`, iterated `n` times: each iteration reads
`self.port_number` (in the channel address f-string) and
`self.stubs` (for `self.stubs.append(stub)`), raising `AttributeError`
if either is unassigned. -/
def initGrpcLoop (a : TPAttrs) : Nat → Except PyErr TPAttrs
  | 0 => .ok a
  | n + 1 =>
    match a.port_number with
    | none => .error (.attributeError "port_number")
    | some _ =>
      match a.stubs with
      | none => .error (.attributeError "stubs")
      | some k => initGrpcLoop { a with stubs := some (k + 1) } n

/-- `MIITensorParallelClient._initialize_grpc_client`: evaluates
`range(self.num_gpus)`, reading `self.num_gpus` first, then runs the
loop.  No assignment `self.num_gpus = ...` exists anywhere in the class,
so the read raises `AttributeError` on every instance. -/
def _init_grpc_client (a : TPAttrs) : Except PyErr TPAttrs :=
  match a.num_gpus with
  | none => .error (.attributeError "num_gpus")
  | some n => initGrpcLoop a n

/-- `MIITensorParallelClient.__init__(self, task_name, host, ports)`:

    self.task = get_task(task_name)
    self.clients = [MIIClient(task_name, host, port) for port in ports]
    self.asyncio_loop = asyncio.get_event_loop()
    self._initialize_grpc_client()
    self.tasks = []
    self.results = []
    self.running = False

`get_task` lives in `mii.utils`, outside this file's source; per the
spec, task resolution is an external collaborator, modelled here as
succeeding and returning the task name unchanged.  The constructor
performs the first three assignments, then calls
`_initialize_grpc_client`; the trailing three assignments run only if
that call returns. -/
def __init__ (task_name : String) (host : String) (ports : List Nat) :
    Except PyErr TPAttrs :=
  let a1 : TPAttrs := { noAttrs with task := some task_name }
  let a2 : TPAttrs := { a1 with clients := some ports.length }
  let a3 : TPAttrs := { a2 with asyncio_loop := some () }
  match _init_grpc_client a3 with
  | .error e => .error e
  | .ok a4 =>
    .ok { a4 with tasks := some [], results := some [], running := some false }

end MIITensorParallelClient

namespace MIITensorParallelClient

/-- `next((item for item in l if item["id"] == h), None)` finds nothing
when `h` is not among the stored ids. -/
theorem find_none_of_absent (l : List (Nat × CallResp)) (h : Nat)
    (hh : h ∉ l.map Prod.fst) : l.find? (fun item => item.1 == h) = none := by
  induction l with
  | nil => rfl
  | cons x xs ih =>
    simp only [List.map_cons, List.mem_cons, not_or] at hh
    have hx : (x.1 == h) = false := by
      simp only [beq_eq_false_iff_ne, ne_eq]
      exact fun hc => hh.1 (hc ▸ rfl)
    rw [List.find?_cons_of_neg _ (by simp [hx]), ih hh.2]

/-- A poll for a handle that is neither queued nor cached returns
`None` (`NotReady`), whatever else the drive step does. -/
theorem poll_absent_fst (s : TPState) (h : Nat) (hh : handleAbsent s h) :
    (get_pending_task_result s h).1 = none := by
  obtain ⟨tasks, results, running, log, net⟩ := s
  obtain ⟨ht, hr⟩ := hh
  simp only [taskIds, resultIds] at ht hr
  unfold get_pending_task_result
  rw [find_none_of_absent _ h hr]
  cases running with
  | true => rfl
  | false =>
    cases tasks with
    | nil => rfl
    | cons t rest =>
      obtain ⟨tid, ⟨ev, out⟩, trun⟩ := t
      simp only [List.map_cons, List.mem_cons, not_or] at ht
      cases out with
      | error e => rfl
      | ok r =>
        simp only []
        rw [if_neg ht.1]

/-- One registry operation that does not submit under `h` keeps `h`
absent from the queue and the cache. -/
theorem step_preserves_absent (s : TPState) (h : Nat) (op : Op)
    (hh : handleAbsent s h) (hop : avoidsHandle h op) :
    handleAbsent (step s op) h := by
  obtain ⟨tasks, results, running, log, net⟩ := s
  obtain ⟨ht, hr⟩ := hh
  simp only [taskIds, resultIds] at ht hr
  cases op with
  | submit h' coro =>
    refine ⟨?_, hr⟩
    simp only [avoidsHandle] at hop
    simp only [step, query_non_block, taskIds, List.map_append, List.map_cons,
      List.map_nil, List.mem_append, List.mem_cons, List.not_mem_nil, or_false,
      not_or]
    exact ⟨ht, fun hc => hop (hc ▸ rfl)⟩
  | poll i =>
    simp only [step]
    unfold get_pending_task_result
    cases hfind : results.find? (fun item => item.1 == i) with
    | some result =>
      refine ⟨ht, ?_⟩
      simp only [taskIds, resultIds, List.mem_map] at hr ⊢
      rintro ⟨x, hx, hx1⟩
      exact hr ⟨x, List.mem_of_mem_filter hx, hx1⟩
    | none =>
      cases running with
      | true => exact ⟨ht, hr⟩
      | false =>
        cases tasks with
        | nil => exact ⟨ht, hr⟩
        | cons t rest =>
          obtain ⟨tid, ⟨ev, out⟩, trun⟩ := t
          simp only [List.map_cons, List.mem_cons, not_or] at ht
          cases out with
          | error e => exact ⟨ht.2, hr⟩
          | ok r =>
            by_cases hieq : i = tid
            · simp only []
              rw [if_pos hieq]
              exact ⟨ht.2, hr⟩
            · simp only []
              rw [if_neg hieq]
              refine ⟨ht.2, ?_⟩
              simp only [taskIds, resultIds, List.map_append, List.map_cons,
                List.map_nil, List.mem_append, List.mem_cons, List.not_mem_nil,
                or_false, not_or]
              exact ⟨hr, ht.1⟩

/-- Any sequence of operations none of which submits under `h` keeps
`h` absent from the queue and the cache. -/
theorem runOps_preserves_absent (ops : List Op) (s : TPState) (h : Nat)
    (hh : handleAbsent s h) (hops : ∀ op ∈ ops, avoidsHandle h op) :
    handleAbsent (runOps s ops) h := by
  induction ops generalizing s with
  | nil => exact hh
  | cons op ops ih =>
    exact ih (step s op)
      (step_preserves_absent s h op hh (hops op (List.mem_cons_self _ _)))
      (fun o ho => hops o (List.mem_cons_of_mem _ ho))

end MIITensorParallelClient

/-- A concrete conversion entry used by the witnesses below: it packs a
request by adding 1 and unpacks a response by doubling it. -/
def wConv : Conversions :=
  { method := "GeneratorReply",
    pack_request_to_proto := fun r => r + 1,
    unpack_response_from_proto := some (fun p => p * 2) }

/-- A concrete method table registering only the task kind
`"text-generation"`. -/
def wTable : MethodTable :=
  fun task => if task = "text-generation" then some wConv else none

/-- A stub that answers every invocation with the request message. -/
def wStubOk : Stub := fun _ p => .ok p

/-- A stub whose every invocation fails at the transport level. -/
def wStubErr : Stub := fun _ _ => .error 3

/-- When the task kind is registered, `_request_async_response` performs
exactly one remote invocation, whether the transport succeeds or
fails. -/
theorem request_events_length_one (table : MethodTable) (stub : Stub)
    (task : String) (req : Req) (conv : Conversions)
    (hsome : table task = some conv) :
    ((MIIClient._request_async_response table stub task req).1).length = 1 := by
  unfold MIIClient._request_async_response
  rw [hsome]
  simp only []
  cases stub conv.method (conv.pack_request_to_proto req) <;> rfl

/-- C9: a call through `MIIClient` whose task kind has no entry in
`GRPC_METHOD_TABLE` fails locally and synchronously with the
unknown-task `ValueError`, with no request packing or network event;
when an entry exists and the transport answers, the response is passed
through `unpack_response_from_proto` exactly when that key is
registered, and is returned as the raw proto response otherwise. -/
theorem C9_unknown_task_kind_is_local (table : MethodTable) (stub : Stub)
    (task : String) (req : Req) :
    (table task = none →
      MIIClient._request_async_response table stub task req
        = ([], .error (.unknownTask task))) ∧
    (∀ conv : Conversions, table task = some conv →
      ∀ pr : Proto,
        stub conv.method (conv.pack_request_to_proto req) = .ok pr →
        (MIIClient._request_async_response table stub task req).2
          = .ok (match conv.unpack_response_from_proto with
                 | some unpack => .unpacked (unpack pr)
                 | none => .raw pr)) := by
  constructor
  · intro hnone
    unfold MIIClient._request_async_response
    rw [hnone]
  · intro conv hsome pr hok
    unfold MIIClient._request_async_response
    rw [hsome]
    simp only []
    rw [hok]

/-- Witness for C9: the unregistered kind `"unsupported"` fails with no
network event, and a registered kind's response is unpacked. -/
theorem C9_witness :
    (MIIClient._request_async_response wTable wStubOk "unsupported" 5
       = ([], .error (.unknownTask "unsupported"))) ∧
    ((MIIClient._request_async_response wTable wStubOk "text-generation" 5).2
       = .ok (.unpacked 12)) :=
  ⟨(C9_unknown_task_kind_is_local wTable wStubOk "unsupported" 5).1 rfl,
   (C9_unknown_task_kind_is_local wTable wStubOk "text-generation" 5).2
     wConv rfl 6 rfl⟩

namespace MIITensorParallelClient

/-- C1: with N ≥ 1 shards, the blocking fan-out `query` initiates one
call per shard client (one network invocation each) and returns exactly
the outcome of shard index 0's call when it succeeds, whatever the
other shards' outcomes are — shard 0 is designated by position, not by
completion order (completion interleaving is abstracted away; the
result depends only on shard 0's outcome). -/
theorem C1_blocking_query_designates_shard0 (table : MethodTable)
    (stub0 : Stub) (rest : List Stub) (task : String) (req : Req)
    (v : CallResp)
    (h0 : (MIIClient._request_async_response table stub0 task req).2 = .ok v) :
    query table (stub0 :: rest) task req = some (.ok v) ∧
    ((_query_in_tensor_parallel table (stub0 :: rest) task req).1).length
        = rest.length + 1 ∧
    ∀ evs ∈ (_query_in_tensor_parallel table (stub0 :: rest) task req).1,
      evs.length = 1 := by
  refine ⟨?_, ?_, ?_⟩
  · simp only [query, _query_in_tensor_parallel, List.map_cons,
      List.head?_cons, h0]
  · simp [_query_in_tensor_parallel]
  · have hconv : ∃ conv, table task = some conv := by
      cases htt : table task with
      | none =>
        exfalso
        unfold MIIClient._request_async_response at h0
        rw [htt] at h0
        exact Except.noConfusion h0
      | some c => exact ⟨c, rfl⟩
    obtain ⟨conv, hconv⟩ := hconv
    intro evs hevs
    simp only [_query_in_tensor_parallel, List.map_map, List.mem_map] at hevs
    obtain ⟨stub, _, hstub⟩ := hevs
    rw [← hstub]
    exact request_events_length_one table stub task req conv hconv

/-- Witness for C1: two shards; shard 0 succeeds and shard 1's
transport fails, yet `query` returns shard 0's unpacked value and both
shard calls were issued. -/
theorem C1_witness :
    query wTable [wStubOk, wStubErr] "text-generation" 5
        = some (.ok (.unpacked 12)) ∧
    ((_query_in_tensor_parallel wTable [wStubOk, wStubErr]
        "text-generation" 5).1).length = 2 ∧
    ∀ evs ∈ (_query_in_tensor_parallel wTable [wStubOk, wStubErr]
        "text-generation" 5).1, evs.length = 1 :=
  C1_blocking_query_designates_shard0 wTable wStubOk [wStubErr]
    "text-generation" 5 (.unpacked 12) rfl

/-- C3: for every task name, host and non-empty port list, constructing
`MIITensorParallelClient` raises before any query can be made:
`__init__` calls `_initialize_grpc_client`, whose `range(self.num_gpus)`
reads the never-assigned attribute `num_gpus` and raises
`AttributeError`. -/
theorem C3_init_raises_attribute_error (task_name host : String)
    (ports : List Nat) (hp : ports ≠ []) :
    __init__ task_name host ports = .error (.attributeError "num_gpus") := rfl

/-- Witness for C3 at a concrete deployment configuration. -/
theorem C3_witness :
    __init__ "text-generation" "localhost" [50050, 50051]
      = .error (.attributeError "num_gpus") :=
  C3_init_raises_attribute_error "text-generation" "localhost"
    [50050, 50051] (by decide)

/-- Poll equation, cached case: when the requested id has an entry in
`self.results`, the poll removes every entry under that id and returns
the found result, touching nothing else. -/
theorem poll_cached (s : TPState) (i : Nat) (result : Nat × CallResp)
    (hfind : s.results.find? (fun item => item.1 == i) = some result) :
    get_pending_task_result s i =
      (some result.2,
       { s with results := s.results.filter (fun item => item.1 != i) }) := by
  unfold get_pending_task_result
  rw [hfind]

/-- Poll equation, busy case: with no cached entry and `self.running`
set, the poll does nothing and returns `None`. -/
theorem poll_busy (s : TPState) (i : Nat)
    (hfind : s.results.find? (fun item => item.1 == i) = none)
    (hrun : s.running = true) :
    get_pending_task_result s i = (none, s) := by
  unfold get_pending_task_result
  rw [hfind, hrun]

/-- Poll equation, empty-queue case: with no cached entry and no queued
task, the poll does nothing and returns `None`. -/
theorem poll_empty (s : TPState) (i : Nat)
    (hfind : s.results.find? (fun item => item.1 == i) = none)
    (htasks : s.tasks = []) :
    get_pending_task_result s i = (none, s) := by
  unfold get_pending_task_result
  rw [hfind, htasks]
  cases hrun : s.running with
  | true => rfl
  | false => rfl

/-- Poll equation, successful drive: the head task is popped and its
coroutine driven to a successful response; the result is returned
inline when the requested id is the head's, and cached under the
head's own id otherwise. -/
theorem poll_drive_ok (s : TPState) (i : Nat) (t : TaskRec)
    (rest : List TaskRec) (r : CallResp)
    (hfind : s.results.find? (fun item => item.1 == i) = none)
    (hrun : s.running = false) (htasks : s.tasks = t :: rest)
    (hcoro : t.coro.2 = .ok r) :
    get_pending_task_result s i =
      if i = t.id then
        (some r,
         { s with running := false, tasks := rest,
                  log := s.log ++ [.started t.id (rest.length + 1)]
                         ++ [.complete t.id],
                  net := s.net ++ t.coro.1 })
      else
        (none,
         { s with running := false, tasks := rest,
                  results := s.results ++ [(t.id, r)],
                  log := s.log ++ [.started t.id (rest.length + 1)]
                         ++ [.complete t.id],
                  net := s.net ++ t.coro.1 }) := by
  unfold get_pending_task_result
  rw [hfind, hrun, htasks]
  simp only [hcoro, List.length_cons]

/-- Poll equation, failing drive: the head task is popped and its
coroutine raises; the `except` branch prints and returns `None`.  Note
`running` remains `true` in the final state: the reset on the line
after `run_until_complete` is skipped. -/
theorem poll_drive_err (s : TPState) (i : Nat) (t : TaskRec)
    (rest : List TaskRec) (e : Exn)
    (hfind : s.results.find? (fun item => item.1 == i) = none)
    (hrun : s.running = false) (htasks : s.tasks = t :: rest)
    (hcoro : t.coro.2 = .error e) :
    get_pending_task_result s i =
      (none,
       { s with running := true, tasks := rest,
                log := s.log ++ [.started t.id (rest.length + 1)]
                       ++ [.failed t.id],
                net := s.net ++ t.coro.1 }) := by
  unfold get_pending_task_result
  rw [hfind, hrun, htasks]
  simp only [hcoro, List.length_cons]

/-- A concrete fan-out coroutine over one shard whose call succeeds:
driving it performs one send and yields the unpacked value 12. -/
def coroOk : Coro := mkCoro wTable [wStubOk] "text-generation" 5

/-- A second successful concrete coroutine, for re-submission traces. -/
def coroOk2 : Coro := mkCoro wTable [wStubOk] "text-generation" 10

/-- A concrete fan-out coroutine over one shard whose transport fails:
driving it raises the shard-0 failure. -/
def coroErr : Coro := mkCoro wTable [wStubErr] "text-generation" 5

/-- A registry with one queued successful task under handle 1. -/
def pendingOne : TPState :=
  { tasks := [{ id := 1, coro := coroOk, run := false }],
    results := [], running := false, log := [], net := [] }

/-- A registry with two queued tasks: handle 1's coroutine raises when
driven, handle 2's succeeds. -/
def stuckDemo : TPState :=
  { tasks := [{ id := 1, coro := coroErr, run := false },
              { id := 2, coro := coroOk, run := false }],
    results := [], running := false, log := [], net := [] }

/-- A registry whose cache holds a resolved entry under handle 5. -/
def cachedState : TPState :=
  { tasks := [], results := [(5, .raw 9)], running := false, log := [],
    net := [] }

/-- C2: polling handle 1 on `stuckDemo` drives its failing task.  The
failure is caught at the registry boundary and reported (the `failed`
print), and the queue itself is not corrupted — but `self.running` is
left `True`: the reset sits on the line after `run_until_complete` and
the `except` branch never restores it.  A subsequent poll therefore
cannot drive the still-queued task 2: the claim's "releases the running
flag, so subsequent poll calls can still drive later queued tasks" is
exactly what the code fails to do. -/
theorem C2_running_flag_left_stuck :
    (get_pending_task_result stuckDemo 1).1 = none ∧
    LogEvent.failed 1 ∈ (get_pending_task_result stuckDemo 1).2.log ∧
    (get_pending_task_result stuckDemo 1).2.tasks
        = [{ id := 2, coro := coroOk, run := false }] ∧
    (get_pending_task_result stuckDemo 1).2.running = true ∧
    (get_pending_task_result (get_pending_task_result stuckDemo 1).2 2).1
        = none ∧
    (get_pending_task_result (get_pending_task_result stuckDemo 1).2 2).2
        = (get_pending_task_result stuckDemo 1).2 := by
  decide

/-- C4 counterexample: in one registry lifetime, two submissions return
the same handle value 7.  The handle is CPython's `id(coro)`, unique
only among simultaneously live objects; after the first coroutine is
driven and dropped from the queue, its address can be reallocated to a
later coroutine.  Both allocations below satisfy `freshHandle`, which
is all that Python's `id` guarantees, so nothing in the code prevents a
handle value from being issued twice. -/
theorem C4_counterexample :
    freshHandle initState 7 ∧
    (query_non_block initState 7 coroOk).1 = 7 ∧
    freshHandle (step (step initState (.submit 7 coroOk)) (.poll 7)) 7 ∧
    (query_non_block (step (step initState (.submit 7 coroOk)) (.poll 7))
        7 coroOk2).1 = 7 := by
  decide

/-- C4 (amended): `query_non_block` returns its handle immediately,
performs no network activity (the coroutine is constructed, never run),
leaves the cache and the running flag untouched, and appends the task
to the queue tail in the queued state (`"run": False`); handles are
distinct among simultaneously queued tasks.  (Uniqueness across the
whole registry lifetime does not hold: a driven task's coroutine is
freed and CPython may reuse its id for a later submission.) -/
theorem C4_submit_enqueues_fresh_handle (s : TPState) (h : Nat)
    (coro : Coro) (hfresh : freshHandle s h)
    (hnodup : (taskIds s).Nodup) :
    (query_non_block s h coro).1 = h ∧
    (query_non_block s h coro).2.tasks
        = s.tasks ++ [{ id := h, coro := coro, run := false }] ∧
    (query_non_block s h coro).2.net = s.net ∧
    (query_non_block s h coro).2.results = s.results ∧
    (query_non_block s h coro).2.running = s.running ∧
    (taskIds (query_non_block s h coro).2).Nodup := by
  refine ⟨rfl, rfl, rfl, rfl, rfl, ?_⟩
  simp only [query_non_block, taskIds, List.map_append, List.map_cons,
    List.map_nil]
  refine List.nodup_append.mpr ⟨hnodup, List.nodup_singleton h, ?_⟩
  intro a ha hb
  rw [List.mem_singleton] at hb
  exact hfresh (hb ▸ ha)

/-- Witness for the amended C4 at a concrete submission. -/
theorem C4_witness :
    (query_non_block initState 7 coroOk).1 = 7 ∧
    (query_non_block initState 7 coroOk).2.tasks
        = [{ id := 7, coro := coroOk, run := false }] ∧
    (query_non_block initState 7 coroOk).2.net = [] ∧
    (query_non_block initState 7 coroOk).2.results = [] ∧
    (query_non_block initState 7 coroOk).2.running = false ∧
    (taskIds (query_non_block initState 7 coroOk).2).Nodup :=
  C4_submit_enqueues_fresh_handle initState 7 coroOk (by decide) (by decide)

/-- C5 counterexample: handle 99 was never submitted to `pendingOne`
(it is absent from queue and cache), and polling it does return
`None` — but the drive step still pops and executes the queued head
task 1, caching its result: the claim's "leaves the registry's task
queue unchanged (it never pops or executes a queued task)" is false. -/
theorem C5_counterexample :
    handleAbsent pendingOne 99 ∧
    (get_pending_task_result pendingOne 99).1 = none ∧
    (get_pending_task_result pendingOne 99).2.tasks = [] ∧
    (get_pending_task_result pendingOne 99).2.results
        = [(1, .unpacked 12)] := by
  decide

/-- C5 (amended): polling a handle that was never submitted returns
`None` (`NotReady`), and the handle stays absent from queue and cache;
the poll may however still pop and execute the head queued task on
behalf of its own handle. -/
theorem C5_unknown_handle_notready (s : TPState) (h : Nat)
    (hab : handleAbsent s h) :
    (get_pending_task_result s h).1 = none ∧
    handleAbsent (get_pending_task_result s h).2 h :=
  ⟨poll_absent_fst s h hab,
   step_preserves_absent s h (.poll h) hab trivial⟩

/-- Witness for the amended C5 on a concrete never-submitted handle. -/
theorem C5_witness :
    (get_pending_task_result pendingOne 99).1 = none ∧
    handleAbsent (get_pending_task_result pendingOne 99).2 99 :=
  C5_unknown_handle_notready pendingOne 99 (by decide)

/-- C6: a poll call advances the FIFO queue by at most one task and
only ever pops the head, whatever handle was asked about; nothing is
driven while `running` is set; and when a drive does happen it pops
exactly the head task and logs it as started. -/
theorem C6_poll_drives_at_most_head (s : TPState) (i : Nat) :
    ((get_pending_task_result s i).2.tasks = s.tasks ∨
     (get_pending_task_result s i).2.tasks = s.tasks.tail) ∧
    (s.running = true →
      (get_pending_task_result s i).2.tasks = s.tasks ∧
      (get_pending_task_result s i).2.log = s.log) ∧
    (∀ t rest, s.tasks = t :: rest → s.running = false →
      s.results.find? (fun item => item.1 == i) = none →
      (get_pending_task_result s i).2.tasks = rest ∧
      LogEvent.started t.id (rest.length + 1)
        ∈ (get_pending_task_result s i).2.log) := by
  cases hfind : s.results.find? (fun item => item.1 == i) with
  | some result =>
    rw [poll_cached s i result hfind]
    refine ⟨Or.inl rfl, fun _ => ⟨rfl, rfl⟩, ?_⟩
    intro t rest _ _ hfind2
    exact Option.noConfusion hfind2
  | none =>
    cases hrun : s.running with
    | true =>
      rw [poll_busy s i hfind hrun]
      refine ⟨Or.inl rfl, fun _ => ⟨rfl, rfl⟩, ?_⟩
      intro t rest _ hrun2 _
      exact Bool.noConfusion hrun2
    | false =>
      cases htasks : s.tasks with
      | nil =>
        rw [poll_empty s i hfind htasks]
        refine ⟨Or.inl htasks, fun _ => ⟨htasks, rfl⟩, ?_⟩
        intro t rest htasks2 _ _
        exact List.noConfusion htasks2
      | cons t rest =>
        have hmain :
            (get_pending_task_result s i).2.tasks = rest ∧
            LogEvent.started t.id (rest.length + 1)
              ∈ (get_pending_task_result s i).2.log := by
          cases hcoro : t.coro.2 with
          | error e =>
            rw [poll_drive_err s i t rest e hfind hrun htasks hcoro]
            exact ⟨rfl, by simp⟩
          | ok r =>
            rw [poll_drive_ok s i t rest r hfind hrun htasks hcoro]
            by_cases hid : i = t.id
            · rw [if_pos hid]
              exact ⟨rfl, by simp⟩
            · rw [if_neg hid]
              exact ⟨rfl, by simp⟩
        refine ⟨Or.inr hmain.1, ?_, ?_⟩
        · intro hrun2
          exact Bool.noConfusion hrun2
        · intro t2 rest2 htasks2 _ _
          injection htasks2 with h1 h2
          subst h1
          subst h2
          exact hmain

/-- Witness for C6 on a concrete drive: polling any handle of
`pendingOne` pops exactly the head task 1 and logs it started. -/
theorem C6_witness :
    (get_pending_task_result pendingOne 1).2.tasks = [] ∧
    LogEvent.started 1 1 ∈ (get_pending_task_result pendingOne 1).2.log :=
  (C6_poll_drives_at_most_head pendingOne 1).2.2
    { id := 1, coro := coroOk, run := false } [] rfl rfl rfl

/-- C7: when a poll's drive step completes the head task successfully,
the result is returned inline as `Ready` (and not cached) exactly when
the completed task's handle equals the requested one; otherwise it is
cached under the completed task's own handle and the poll returns
`None` for the requested handle. -/
theorem C7_drive_success_delivery (s : TPState) (i : Nat) (t : TaskRec)
    (rest : List TaskRec) (r : CallResp)
    (hfind : s.results.find? (fun item => item.1 == i) = none)
    (hrun : s.running = false) (htasks : s.tasks = t :: rest)
    (hcoro : t.coro.2 = .ok r) :
    (i = t.id →
      (get_pending_task_result s i).1 = some r ∧
      (get_pending_task_result s i).2.results = s.results) ∧
    (i ≠ t.id →
      (get_pending_task_result s i).1 = none ∧
      (get_pending_task_result s i).2.results
        = s.results ++ [(t.id, r)]) := by
  rw [poll_drive_ok s i t rest r hfind hrun htasks hcoro]
  constructor
  · intro hi
    rw [if_pos hi]
    exact ⟨rfl, rfl⟩
  · intro hi
    rw [if_neg hi]
    exact ⟨rfl, rfl⟩

/-- Witness for C7: on `pendingOne` (head task has handle 1), polling
handle 1 returns the result inline without caching it, while polling
handle 2 caches it under handle 1 and returns `None`. -/
theorem C7_witness :
    ((get_pending_task_result pendingOne 1).1 = some (.unpacked 12) ∧
     (get_pending_task_result pendingOne 1).2.results = []) ∧
    ((get_pending_task_result pendingOne 2).1 = none ∧
     (get_pending_task_result pendingOne 2).2.results
        = [(1, .unpacked 12)]) :=
  ⟨(C7_drive_success_delivery pendingOne 1
      { id := 1, coro := coroOk, run := false } [] (.unpacked 12)
      rfl rfl rfl (by decide)).1 rfl,
   (C7_drive_success_delivery pendingOne 2
      { id := 1, coro := coroOk, run := false } [] (.unpacked 12)
      rfl rfl rfl (by decide)).2 (by decide)⟩

/-- C8: a cached result is consumed exactly once: the first poll for
its handle removes the entry and returns it as `Ready`, after which the
handle is absent from queue and cache, and every later poll for it —
across any operation sequence that does not re-issue the handle —
returns `None`. -/
theorem C8_cache_entry_consumed_once (s : TPState) (h : Nat)
    (r : CallResp)
    (hfind : s.results.find? (fun item => item.1 == h) = some (h, r))
    (htask : h ∉ taskIds s) :
    (get_pending_task_result s h).1 = some r ∧
    handleAbsent (get_pending_task_result s h).2 h ∧
    ∀ ops : List Op, (∀ op ∈ ops, avoidsHandle h op) →
      (get_pending_task_result
          (runOps (get_pending_task_result s h).2 ops) h).1 = none := by
  have habs : handleAbsent (get_pending_task_result s h).2 h := by
    rw [poll_cached s h (h, r) hfind]
    refine ⟨htask, ?_⟩
    simp only [resultIds, List.mem_map]
    rintro ⟨x, hx, hx1⟩
    have hne := List.of_mem_filter hx
    rw [hx1] at hne
    simp at hne
  refine ⟨?_, habs, ?_⟩
  · rw [poll_cached s h (h, r) hfind]
  · intro ops hops
    exact poll_absent_fst _ h (runOps_preserves_absent ops _ h habs hops)

/-- Witness for C8: claiming the cached entry of handle 5, then
submitting handle 6, polling 5 and polling 6; the later poll of 5
returns `None`. -/
theorem C8_witness :
    (get_pending_task_result cachedState 5).1 = some (.raw 9) ∧
    (get_pending_task_result
        (runOps (get_pending_task_result cachedState 5).2
          [.submit 6 coroOk, .poll 5, .poll 6]) 5).1 = none := by
  have hmain := C8_cache_entry_consumed_once cachedState 5 (.raw 9)
    rfl (by decide)
  exact ⟨hmain.1,
    hmain.2.2 [.submit 6 coroOk, .poll 5, .poll 6] (by decide)⟩

/-- C10: when the drive step executes a task whose coroutine raises,
the failure is reported (the `failed` diagnostic print), the task's
handle is never resolved into the result cache, and every subsequent
poll for that handle — across any operation sequence that does not
re-issue it — returns `None` forever. -/
theorem C10_failed_handle_never_resolves (s : TPState) (h : Nat)
    (t : TaskRec) (rest : List TaskRec) (e : Exn)
    (hfind : s.results.find? (fun item => item.1 == h) = none)
    (hrun : s.running = false) (htasks : s.tasks = t :: rest)
    (hid : t.id = h) (hcoro : t.coro.2 = .error e)
    (hres : h ∉ resultIds s) (hrest : h ∉ rest.map TaskRec.id) :
    (get_pending_task_result s h).1 = none ∧
    LogEvent.failed h ∈ (get_pending_task_result s h).2.log ∧
    handleAbsent (get_pending_task_result s h).2 h ∧
    ∀ ops : List Op, (∀ op ∈ ops, avoidsHandle h op) →
      (get_pending_task_result
          (runOps (get_pending_task_result s h).2 ops) h).1 = none := by
  have habs : handleAbsent (get_pending_task_result s h).2 h := by
    rw [poll_drive_err s h t rest e hfind hrun htasks hcoro]
    exact ⟨hrest, hres⟩
  refine ⟨?_, ?_, habs, ?_⟩
  · rw [poll_drive_err s h t rest e hfind hrun htasks hcoro]
  · rw [poll_drive_err s h t rest e hfind hrun htasks hcoro]
    simp [hid]
  · intro ops hops
    exact poll_absent_fst _ h (runOps_preserves_absent ops _ h habs hops)

/-- Witness for C10 on `stuckDemo`: driving failing task 1 reports the
failure, leaves handle 1 unresolved, and polls of handle 1 after
further operations still return `None`. -/
theorem C10_witness :
    (get_pending_task_result stuckDemo 1).1 = none ∧
    LogEvent.failed 1 ∈ (get_pending_task_result stuckDemo 1).2.log ∧
    (get_pending_task_result
        (runOps (get_pending_task_result stuckDemo 1).2
          [.poll 1, .poll 2]) 1).1 = none := by
  have hmain := C10_failed_handle_never_resolves stuckDemo 1
    { id := 1, coro := coroErr, run := false }
    [{ id := 2, coro := coroOk, run := false }]
    (.callFailed (.transport 3)) rfl rfl rfl rfl (by decide)
    (by decide) (by decide)
  exact ⟨hmain.1, hmain.2.1, hmain.2.2.2 [.poll 1, .poll 2] (by decide)⟩

end MIITensorParallelClient

end MII
